import Mathlib

/-!
Shallow embedding of `bulkRegistration/step2CreateAndActivateCredential.py`
(bulk registration of FIDO2 passkeys on behalf of users, step 2), together
with theorems settling the specification claims about it.

Conventions of the embedding:
* Python `bytes` values are `List Nat` (each element a byte value).
* Python exceptions become explicit error constructors (`Except`/`Option`);
  a bare `except:` clause becomes a total function returning the handler's
  value on every error outcome.
* External effects (HID reads, APDU exchanges, `getpass`, HTTP responses,
  the CSPRNG behind `secrets.choice`) are supplied as explicit oracle
  parameters; the code's decision logic on those values is translated
  branch by branch from the source.
* UTF-8 decoding is modelled on its ASCII subset (the vendor serial format
  and all strings the claims touch are ASCII); a non-ASCII byte is a decode
  failure, mirroring `UnicodeDecodeError`.
-/

/-! ## Generic byte and string helpers -/

/-- ASCII decoding of a byte list, the fragment of `bytes.decode("utf-8")`
exercised by the program: succeeds exactly when all bytes are ASCII. -/
def decode_ascii (b : List Nat) : Option String :=
  if b.all (fun x => x < 128) then some (String.mk (b.map Char.ofNat)) else none

/-- `struct.unpack_from(">I", recv)[0]`: big-endian 32-bit read of the first
four bytes; `none` models the `struct.error` raised on fewer than 4 bytes. -/
def unpack_from_be32 (b : List Nat) : Option Nat :=
  match b with
  | b0 :: b1 :: b2 :: b3 :: _ => some (((b0 * 256 + b1) * 256 + b2) * 256 + b3)
  | _ => none

/-- Big-endian 4-byte encoding of a 32-bit value (`struct.pack(">I", x)`). -/
def be32_bytes (x : Nat) : List Nat :=
  [x / 2 ^ 24 % 256, x / 2 ^ 16 % 256, x / 2 ^ 8 % 256, x % 256]

/-- CPython's `sys.getsizeof` on a `bytes` object: the byte length plus the
object-header overhead (33 bytes on a 64-bit CPython build).  This models the
call in the source faithfully: it measures object size, not payload length. -/
def sys_getsizeof (b : List Nat) : Nat := 33 + b.length

/-! ## Transport probe: USB HID branch of `get_thales_serial_number` -/

/-- The vendor command packet written before the read
(`struct.pack(">IBBBB", channel_id, 128 | 0x50, 0x00, 0x01, 0x55)`,
left-justified to the transport packet size with zero padding). -/
def thales_hid_request (channel_id packet_size : Nat) : List Nat :=
  let packet := be32_bytes channel_id ++ [128 ||| 0x50, 0x00, 0x01, 0x55]
  packet ++ List.replicate (packet_size - packet.length) 0

/-- Failure outcomes of the USB HID serial-number exchange.  The first three
constructors are raised `Exception`s of the source; `indexOutOfBounds` is a
Python `IndexError` from an unguarded `recv[i]`; `decodeRaised` is a
`UnicodeDecodeError`. -/
inductive HidProbeError where
  | unpackRaised
  | wrongChannel
  | statusByteMismatch
  | indexOutOfBounds
  | responseTooShort
  | decodeRaised
  deriving DecidableEq, Repr

/-- USB HID branch of `get_thales_serial_number`, as a function of the
session's channel identifier and the response packet returned by
`device._connection.read_packet()`.  Mirrors the source order of checks:
channel echo, then `recv[7]`/`recv[8]` (short-circuit `or`, each access
unguarded), then the `sys.getsizeof(recv) < 17` test, then
`recv[9:17].decode("utf-8")`. -/
def get_thales_serial_number_hid (channel_id : Nat) (recv : List Nat) :
    Except HidProbeError String :=
  match unpack_from_be32 recv with
  | none => .error .unpackRaised
  | some r_channel =>
    if r_channel ≠ channel_id then .error .wrongChannel
    else
      match recv.get? 7 with
      | none => .error .indexOutOfBounds
      | some b7 =>
        if b7 ≠ 0 then .error .statusByteMismatch
        else
          match recv.get? 8 with
          | none => .error .indexOutOfBounds
          | some b8 =>
            if b8 ≠ 0x02 then .error .statusByteMismatch
            else if sys_getsizeof recv < 17 then .error .responseTooShort
            else
              match decode_ascii ((recv.drop 9).take 8) with
              | none => .error .decodeRaised
              | some serial => .ok serial

/-! ## Transport probe: contactless (NFC) branch of `get_thales_serial_number` -/

/-- Result of one `device.apdu_exchange` call: either the `(resp, sw1, sw2)`
triple, or the call itself raising. -/
inductive ApduOutcome where
  | ok (resp : List Nat) (sw1 sw2 : Nat)
  | raises

/-- A contactless device, as the oracle answering APDU exchanges. -/
structure NfcDevice where
  apdu_exchange : List Nat → ApduOutcome

/-- `SW_SUCCESS` from `fido2.pcsc`. -/
def SW_SUCCESS : Nat × Nat := (0x90, 0x00)

/-- The Card Manager applet identifier. -/
def AID_CM : List Nat := [0xa0, 0x00, 0x00, 0x00, 0x03, 0x00, 0x00, 0x00]

/-- The applet-selection APDU: `b"\x00\xa4\x04\x00" + len(AID_CM) + AID_CM`. -/
def select_apdu : List Nat := [0x00, 0xa4, 0x04, 0x00] ++ [AID_CM.length] ++ AID_CM

/-- The get-data APDU `b"\x80\xCA\x01\x04"`. -/
def get_data_apdu : List Nat := [0x80, 0xca, 0x01, 0x04]

/-- The `try:` body of the NFC branch: applet selection, status-word check,
get-data exchange, status-word check, then `resp[3:].decode("utf-8")`.
`none` is any raised exception (all are caught by the bare `except:`). -/
def nfc_try_body (dev : NfcDevice) : Option String :=
  match dev.apdu_exchange select_apdu with
  | .raises => none
  | .ok _ sw1 sw2 =>
    if (sw1, sw2) ≠ SW_SUCCESS then none
    else
      match dev.apdu_exchange get_data_apdu with
      | .raises => none
      | .ok resp sw1 sw2 =>
        if (sw1, sw2) ≠ SW_SUCCESS then none
        else decode_ascii (resp.drop 3)

/-- Observable outcome of the NFC branch: the returned serial plus whether
the `finally: device._select()` cleanup executed. -/
structure NfcProbeResult where
  serial : String
  selectCleanupRan : Bool
  deriving DecidableEq, Repr

/-- Contactless branch of `get_thales_serial_number`: the bare `except:`
turns every raised exception into the return value `""`, and the `finally:`
re-selection cleanup runs on each path out of the `try` statement. -/
def get_thales_serial_number_nfc (dev : NfcDevice) : NfcProbeResult :=
  match nfc_try_body dev with
  | none => { serial := "", selectCleanupRan := true }
  | some s => { serial := s, selectCleanupRan := true }

/-! ## PIN manager: `generate_pin` -/

/-- `string.digits`. -/
def string_digits : List Char := ['0', '1', '2', '3', '4', '5', '6', '7', '8', '9']

/-- `secrets.choice(alphabet)` given the CSPRNG draw `r`. -/
def secrets_choice (alphabet : List Char) (r : Nat) : Char :=
  alphabet.getD (r % alphabet.length) '0'

/-- The fixed denylist `disallowed_pins` of `generate_pin`. -/
def disallowed_pins : List String :=
  ["12345678", "12341234", "87654321", "12344321", "11223344", "12121212",
   "123456", "123123", "654321", "123321", "112233", "121212", "520520",
   "123654", "159753"]

/-- One loop iteration's candidate:
`"".join(secrets.choice(string.digits) for _ in range(length))`, with the
CSPRNG modelled as the oracle `src` indexed by iteration and position. -/
def draw_candidate (length : Nat) (src : Nat → Nat → Nat) (k : Nat) : String :=
  String.mk ((List.range length).map fun i => secrets_choice string_digits (src k i))

/-- The acceptance test `len(set(digits)) != 1 and digits not in disallowed_pins`
(`len(set(·))` is the number of distinct characters, i.e. `dedup.length`). -/
def pin_acceptable (s : String) : Bool :=
  (s.data.dedup.length != 1) && !(disallowed_pins.contains s)

/-- The `while True:` rejection-sampling loop of `generate_pin`, with explicit
fuel (the source loop has none; `none` means the fuel ran out before an
acceptable candidate was drawn). -/
def generate_pin_loop (length : Nat) (src : Nat → Nat → Nat) :
    Nat → Nat → Option String
  | 0, _ => none
  | fuel + 1, k =>
    let digits := draw_candidate length src k
    if pin_acceptable digits then some digits
    else generate_pin_loop length src fuel (k + 1)

/-- `generate_pin`, for the configured `randomPINLength`. -/
def generate_pin (length : Nat) (src : Nat → Nat → Nat) (fuel : Nat) : Option String :=
  generate_pin_loop length src fuel 0

/-! ## PIN manager: `generate_and_set_pin` and `set_ctap21_flags` -/

/-- The configuration options of `configs.json` that the modelled code reads. -/
structure Configs where
  setRandomPIN : Bool
  setMinimumPINLength : Bool
  setForceChangePin : Bool
  randomPINLength : Nat
  minimumPINLength : Nat
  deriving DecidableEq, Repr

/-- The authenticator state the PIN manager observes and changes:
`getInfo.options["clientPin"]` (`some true` = a PIN is set, `some false` =
supported but unset, `none` = absent) and the stored PIN value. -/
structure AuthenticatorState where
  clientPin : Option Bool
  storedPin : Option String
  deriving DecidableEq, Repr

/-- Outcome of `generate_and_set_pin`: `quitted` is the `quit()` call
(uncaught `SystemExit`, the run stops), carrying the unchanged device state
and unchanged global `pin`; `ok` carries the updated device and global `pin`;
`outOfFuel` is the model artifact of exhausting the sampling fuel. -/
inductive GenSetPinResult where
  | quitted (device : AuthenticatorState) (pin : String)
  | ok (device : AuthenticatorState) (pin : String)
  | outOfFuel
  deriving DecidableEq, Repr

/-- `generate_and_set_pin(device)`: under `setRandomPIN`, quit if the device
already reports a client PIN, otherwise draw a fresh PIN with `generate_pin`
and apply it with `ClientPin.set_pin` (the device then reports a PIN set);
without `setRandomPIN`, do nothing (the platform prompts later). -/
def generate_and_set_pin (cfg : Configs) (src : Nat → Nat → Nat) (fuel : Nat)
    (device : AuthenticatorState) (pin : String) : GenSetPinResult :=
  if cfg.setRandomPIN then
    if device.clientPin = some true then .quitted device pin
    else
      match generate_pin cfg.randomPINLength src fuel with
      | none => .outOfFuel
      | some p => .ok { clientPin := some true, storedPin := some p } p
  else .ok device pin

/-- `set_ctap21_flags(device)`, restricted to its effect on the global `pin`:
outside the delegated Windows (non-admin) branch, a user-supplied PIN is
re-prompted via `getpass` and assigned to the global; with `setRandomPIN`
the global keeps the generated value.  The authenticator-configuration side
effects (`set_min_pin_length`, force-change) act only on the device and are
outside the verified state. -/
def set_ctap21_flags (cfg : Configs) (windowsNonAdmin : Bool)
    (promptedPin : String) (pin : String) : String :=
  if !windowsNonAdmin then
    if !cfg.setRandomPIN then promptedPin else pin
  else pin

/-! ## Registration ceremony: `build_creation_options` -/

/-- One entry of `pubKeyCredParams`. -/
structure PubKeyCredParam where
  type : String
  alg : Int
  deriving DecidableEq, Repr

/-- The `fido2` `CredProtectExtension.POLICY` enumeration. -/
inductive CredProtectPolicy where
  | optional
  | optionalWithList
  | required
  deriving DecidableEq, Repr

/-- The credential-protection level each policy value denotes
(`OPTIONAL` = `userVerificationOptional` = level 1). -/
def credProtectLevel : CredProtectPolicy → Nat
  | .optional => 1
  | .optionalWithList => 2
  | .required => 3

/-- The `authenticatorSelection` member. -/
structure AuthenticatorSelection where
  authenticatorAttachment : String
  requireResidentKey : Bool
  userVerification : String
  deriving DecidableEq, Repr

/-- The `extensions` member. -/
structure CreationExtensions where
  hmacCreateSecret : Bool
  enforceCredentialProtectionPolicy : Bool
  credentialProtectionPolicy : CredProtectPolicy
  deriving DecidableEq, Repr

/-- The `rp` member. -/
structure RpEntity where
  id : String
  name : String
  deriving DecidableEq, Repr

/-- The `user` member (`id` is a bytearray). -/
structure UserEntity where
  id : List Nat
  displayName : String
  name : String
  deriving DecidableEq, Repr

/-- The `publicKey` member of the creation-options record. -/
structure PublicKeyOptions where
  challenge : List Nat
  timeout : Nat
  attestation : String
  rp : RpEntity
  user : UserEntity
  pubKeyCredParams : List PubKeyCredParam
  excludeCredentials : List String
  authenticatorSelection : AuthenticatorSelection
  extensions : CreationExtensions
  deriving DecidableEq, Repr

/-- One base64 character's 6-bit value (after the urlsafe mapping). -/
def b64_char_val (c : Char) : Option Nat :=
  if 'A' ≤ c ∧ c ≤ 'Z' then some (c.toNat - 65)
  else if 'a' ≤ c ∧ c ≤ 'z' then some (c.toNat - 97 + 26)
  else if '0' ≤ c ∧ c ≤ '9' then some (c.toNat - 48 + 52)
  else if c = '+' then some 62
  else if c = '/' then some 63
  else none

/-- Base64 group decoder: processes quartets, stopping at padding. -/
def b64_decode_groups : List Char → List Nat
  | c1 :: c2 :: c3 :: c4 :: rest =>
    match b64_char_val c1, b64_char_val c2 with
    | some v1, some v2 =>
      let byte1 := v1 * 4 + v2 / 16
      match b64_char_val c3 with
      | none => [byte1]
      | some v3 =>
        let byte2 := v2 % 16 * 16 + v3 / 4
        match b64_char_val c4 with
        | none => [byte1, byte2]
        | some v4 => byte1 :: byte2 :: (v3 % 4 * 64 + v4) :: b64_decode_groups rest
    | _, _ => []
  | _ => []

/-- `base64url_to_bytearray`: map `_`→`/` and `-`→`+`, append
`"=" * (4 - len % 4)` padding, and base64-decode. -/
def base64url_to_bytearray (s : String) : List Nat :=
  let temp := s.data.map fun c => if c = '_' then '/' else if c = '-' then '+' else c
  b64_decode_groups (temp ++ List.replicate (4 - s.length % 4) '=')

/-- `build_creation_options(challenge, userId, displayName, name, rp_id)`:
the statically defined creation-options record (its `publicKey` member). -/
def build_creation_options (challenge userId displayName name rp_id : String) :
    PublicKeyOptions :=
  { challenge := base64url_to_bytearray challenge
    timeout := 0
    attestation := "direct"
    rp := { id := rp_id, name := "Microsoft" }
    user := { id := base64url_to_bytearray userId, displayName := displayName,
              name := name }
    pubKeyCredParams := [{ type := "public-key", alg := -7 },
                         { type := "public-key", alg := -257 }]
    excludeCredentials := []
    authenticatorSelection := { authenticatorAttachment := "cross-platform",
                                requireResidentKey := true,
                                userVerification := "required" }
    extensions := { hmacCreateSecret := true,
                    enforceCredentialProtectionPolicy := true,
                    credentialProtectionPolicy := .optional } }

/-! ## Activation client: `create_and_activate_fido_method` -/

/-- The Graph response to the fido2Methods POST, reduced to what the code
inspects: the status code and the `"id"` field of the JSON body. -/
structure HttpResponse where
  status_code : Nat
  json_id : String
  deriving DecidableEq, Repr

/-- `create_and_activate_fido_method`, as a function of the HTTP response:
`(True, create_response["id"])` on 201, `(False, [])` otherwise (the Python
empty list is `none`). -/
def create_and_activate_fido_method (response : HttpResponse) :
    Bool × Option String :=
  if response.status_code = 201 then (true, some response.json_id)
  else (false, none)

/-! ## Batch orchestrator: `create_credentials_on_security_key` and `main` -/

/-- One worklist row of `usersToRegister.csv` (header skipped). -/
structure WorklistEntry where
  user_name : String
  user_display_name : String
  user_id : String
  challenge : String
  challenge_expiry_time : String
  rp_id : String
  deriving DecidableEq, Repr

/-- What `client.make_credential` yields after the encoding steps:
the four websafe-encoded artifact strings. -/
structure MakeCredentialResult where
  attestation : String
  clientData : String
  credentialId : String
  clientExtensionResults : String
  deriving DecidableEq, Repr

/-- Per-entry environment: the device and external effects one run of
`create_credentials_on_security_key` observes.  `windowsNonAdmin` is
`WindowsClient.is_available() and not IsUserAnAdmin()`; `rk` is
`client.info.options.get("rk")`; `makeCredential = none` means the
ceremony call raised; `configGetpass` is what the `getpass` prompt inside
`set_ctap21_flags` returns. -/
structure CeremonyEnv where
  windowsNonAdmin : Bool
  device : AuthenticatorState
  pinSrc : Nat → Nat → Nat
  pinFuel : Nat
  rk : Option Bool
  makeCredential : Option MakeCredentialResult
  serialNumber : String
  configGetpass : String

/-- Abnormal terminations of `create_credentials_on_security_key`:
`pinAlreadySetQuit` is the `quit()` in `generate_and_set_pin`,
`noResidentKeySupport` the `sys.exit(1)` on `rk == False`,
`makeCredentialRaised` an exception out of the ceremony,
`outOfFuel` the sampling-fuel model artifact. -/
inductive CeremonyError where
  | pinAlreadySetQuit
  | noResidentKeySupport
  | makeCredentialRaised
  | outOfFuel
  deriving DecidableEq, Repr

/-- `create_credentials_on_security_key`, threading the global `pin`:
on the delegated Windows branch the global becomes `"n/a"` and the device
PIN steps are skipped; otherwise `generate_and_set_pin` runs, then the
discoverable-credential support check, then the ceremony; afterwards
`set_ctap21_flags` runs when either CTAP2.1 flag is configured.  Returns the
artifact, the serial number, and the new global `pin`. -/
def create_credentials_on_security_key (cfg : Configs) (env : CeremonyEnv)
    (pin : String) :
    Except CeremonyError (MakeCredentialResult × String × String) :=
  if env.windowsNonAdmin then
    let pin1 := "n/a"
    match env.makeCredential with
    | none => .error .makeCredentialRaised
    | some art =>
      let pin2 :=
        if cfg.setMinimumPINLength || cfg.setForceChangePin then
          set_ctap21_flags cfg true env.configGetpass pin1
        else pin1
      .ok (art, env.serialNumber, pin2)
  else
    match generate_and_set_pin cfg env.pinSrc env.pinFuel env.device pin with
    | .quitted _ _ => .error .pinAlreadySetQuit
    | .outOfFuel => .error .outOfFuel
    | .ok _ pin1 =>
      if env.rk = some false then .error .noResidentKeySupport
      else
        match env.makeCredential with
        | none => .error .makeCredentialRaised
        | some art =>
          let pin2 :=
            if cfg.setMinimumPINLength || cfg.setForceChangePin then
              set_ctap21_flags cfg false env.configGetpass pin1
            else pin1
          .ok (art, env.serialNumber, pin2)

/-- One output row of `keysRegistered.csv`
(`[user_name, auth_method, serial, pin]`; the Python `[]` written on a
failed activation is `none`). -/
structure CsvRow where
  upn : String
  authMethodId : Option String
  serialNumber : String
  pin : String
  deriving DecidableEq, Repr

/-- One worklist entry together with its per-entry external behavior:
the ceremony environment and the activation response
(`none` = `requests.post` or the response handling raised). -/
structure EntryRun where
  entry : WorklistEntry
  ceremonyEnv : CeremonyEnv
  activation : Option HttpResponse

/-- Processing of one worklist entry inside `main`'s loop: run the ceremony,
then the activation call; `none` is any exception (the batch aborts);
otherwise the row that `csv_writer.writerow` appends, plus the global `pin`
carried to the next entry. -/
def entryStep (cfg : Configs) (run : EntryRun) (pin : String) :
    Option (CsvRow × String) :=
  match create_credentials_on_security_key cfg run.ceremonyEnv pin with
  | .error _ => none
  | .ok (_, serial, pin') =>
    match run.activation with
    | none => none
    | some response =>
      let activated := create_and_activate_fido_method response
      some ({ upn := run.entry.user_name, authMethodId := activated.2,
              serialNumber := serial, pin := pin' }, pin')

/-- `main`'s loop over the worklist: the rows appended to the output record
set.  On the first entry whose processing raises, the loop returns (the
batch aborts); rows already appended are kept, later entries are not
attempted. -/
def runBatch (cfg : Configs) : List EntryRun → String → List CsvRow
  | [], _ => []
  | run :: rest, pin =>
    match entryStep cfg run pin with
    | none => []
    | some (row, pin') => row :: runBatch cfg rest pin'

/-- The global `pin` after successfully processing a list of entries in
order (`none` when some entry's processing raises). -/
def pinAfter (cfg : Configs) : List EntryRun → String → Option String
  | [], pin => some pin
  | run :: rest, pin =>
    match entryStep cfg run pin with
    | none => none
    | some (_, pin') => pinAfter cfg rest pin'

/-! ## Concrete inputs for counterexamples and witnesses -/

/-- A worklist entry used by the concrete runs. -/
def entryA : WorklistEntry :=
  { user_name := "alice@contoso.com", user_display_name := "Alice",
    user_id := "dXNlcjE", challenge := "Y2hhbGxlbmdl",
    challenge_expiry_time := "2026-01-01T00:00:00Z", rp_id := "login.microsoft.com" }

/-- A ceremony artifact used by the concrete runs. -/
def artA : MakeCredentialResult :=
  { attestation := "att", clientData := "cd", credentialId := "cred",
    clientExtensionResults := "ext" }

/-- The module-level initial value of the global `pin` (`pin = ""`). -/
def pinInit : String := ""

/-- A PIN value already stored on a device. -/
def pinOld : String := "1234"

/-- A sample generated PIN used by witnesses. -/
def pinSample : String := "0123"

/-- The method id of `resp201`. -/
def methodIdA : String := "abc123"

/-- The method id returned for the prompting run. -/
def methodIdPrompted : String := "mid-1"

/-- The truncated serial the HID path returns for `recvTruncated`. -/
def serialABC : String := "ABC"

/-- A device with client-PIN support and no PIN set. -/
def devNoPin : AuthenticatorState := { clientPin := some false, storedPin := none }

/-- A device that already reports a client PIN. -/
def devPinSet : AuthenticatorState := { clientPin := some true, storedPin := some pinOld }

/-- Configuration with every optional behavior off. -/
def cfgPlain : Configs :=
  { setRandomPIN := false, setMinimumPINLength := false, setForceChangePin := false,
    randomPINLength := 6, minimumPINLength := 6 }

/-- Configuration that prompts for the PIN but applies the CTAP2.1
minimum-length flag. -/
def cfgPrompted : Configs :=
  { setRandomPIN := false, setMinimumPINLength := true, setForceChangePin := false,
    randomPINLength := 6, minimumPINLength := 6 }

/-- Configuration requesting random-PIN generation. -/
def cfgRandom : Configs :=
  { setRandomPIN := true, setMinimumPINLength := false, setForceChangePin := false,
    randomPINLength := 6, minimumPINLength := 6 }

/-- A ceremony environment in which every step succeeds. -/
def envOk : CeremonyEnv :=
  { windowsNonAdmin := false, device := devNoPin, pinSrc := fun _ _ => 0,
    pinFuel := 0, rk := some true, makeCredential := some artA,
    serialNumber := "SK000001", configGetpass := "" }

/-- A ceremony environment whose `make_credential` call raises. -/
def envRaise : CeremonyEnv := { envOk with makeCredential := none }

/-- A ceremony environment where the operator re-enters the PIN `"9137"`
at the `set_ctap21_flags` prompt. -/
def envPrompted : CeremonyEnv := { envOk with configGetpass := "9137" }

/-- An entry run whose activation returns HTTP 201 with id `"m1"`. -/
def runOk : EntryRun :=
  { entry := entryA, ceremonyEnv := envOk,
    activation := some { status_code := 201, json_id := "m1" } }

/-- An entry run whose ceremony raises. -/
def runRaise : EntryRun := { runOk with ceremonyEnv := envRaise }

/-- An entry run whose activation returns HTTP 400. -/
def run400 : EntryRun :=
  { runOk with activation := some { status_code := 400, json_id := "zz" } }

/-- An entry run under which `set_ctap21_flags` re-prompts the operator. -/
def runPrompted : EntryRun :=
  { runOk with
    ceremonyEnv := envPrompted
    activation := some { status_code := 201, json_id := "mid-1" } }

/-- An 8-byte HID response packet whose echoed channel identifier (1)
matches, with byte 7 equal to 0 and no byte 8. -/
def recvShort : List Nat := [0, 0, 0, 1, 0, 0, 0, 0]

/-- A well-formed but 12-byte HID response: channel 1 echoed, status bytes
`0`/`0x02` in place, serial payload `"ABC"` (3 of the 8 expected bytes). -/
def recvTruncated : List Nat := [0, 0, 0, 1, 9, 9, 9, 0, 2, 65, 66, 67]

/-- A contactless device on which every APDU exchange raises. -/
def nfcDevRaise : NfcDevice := { apdu_exchange := fun _ => .raises }

/-- An HTTP 201 activation response with body id `"abc123"`. -/
def resp201 : HttpResponse := { status_code := 201, json_id := "abc123" }

/-- An HTTP 400 activation response. -/
def resp400 : HttpResponse := { status_code := 400, json_id := "abc123" }

/-- A CSPRNG oracle that, at any iteration, yields index 0 (digit `'0'`) at
every position before the last and index 1 (digit `'1'`) at the last
position of a candidate of the given length. -/
def goodPinSrc (length : Nat) : Nat → Nat → Nat :=
  fun _ i => if i + 1 < length then 0 else 1

/-- The row `main` appends for `run400` (activation failed with HTTP 400):
empty method id, serial and pin as threaded. -/
def row400 : CsvRow :=
  { upn := "alice@contoso.com", authMethodId := none,
    serialNumber := "SK000001", pin := "" }

/-- The row `main` appends for `runPrompted`: its pin field is the PIN the
operator typed at the `set_ctap21_flags` prompt. -/
def rowPrompted : CsvRow :=
  { upn := "alice@contoso.com", authMethodId := some methodIdPrompted,
    serialNumber := "SK000001", pin := "9137" }

/-! ## Helper lemmas -/

theorem draw_candidate_length (length : Nat) (src : Nat → Nat → Nat) (k : Nat) :
    (draw_candidate length src k).length = length := by
  show ((List.range length).map _).length = length
  simp

theorem pin_acceptable_iff {s : String} :
    pin_acceptable s = true ↔
      s.data.dedup.length ≠ 1 ∧ disallowed_pins.contains s = false := by
  simp [pin_acceptable]

theorem generate_pin_loop_spec {length : Nat} {src : Nat → Nat → Nat} :
    ∀ {fuel k p}, generate_pin_loop length src fuel k = some p →
      pin_acceptable p = true ∧ ∃ j, p = draw_candidate length src j := by
  intro fuel
  induction fuel with
  | zero => intro k p h; simp [generate_pin_loop] at h
  | succ n ih =>
    intro k p h
    simp only [generate_pin_loop] at h
    split at h
    · rename_i hacc
      cases h
      exact ⟨hacc, k, rfl⟩
    · exact ih h

theorem dedup_length_ne_one_of_mem_ne {α : Type} [DecidableEq α] {l : List α}
    {a b : α} (ha : a ∈ l) (hb : b ∈ l) (hab : a ≠ b) : l.dedup.length ≠ 1 := by
  intro hlen
  obtain ⟨c, hc⟩ := List.length_eq_one.mp hlen
  have ha' := List.mem_dedup.mpr ha
  have hb' := List.mem_dedup.mpr hb
  rw [hc, List.mem_singleton] at ha' hb'
  exact hab (ha'.trans hb'.symm)

theorem goodPin_draw_data (length : Nat) :
    (draw_candidate length (goodPinSrc length) 0).data =
      (List.range length).map (fun i => if i + 1 < length then '0' else '1') := by
  show (List.range length).map _ = _
  apply List.map_congr_left
  intro i _
  by_cases h : i + 1 < length <;>
    simp [goodPinSrc, secrets_choice, string_digits, h]

theorem goodPin_head (length : Nat) (h2 : 2 ≤ length) :
    (draw_candidate length (goodPinSrc length) 0).data.head? = some '0' := by
  obtain ⟨m, rfl⟩ : ∃ m, length = m + 1 := ⟨length - 1, by omega⟩
  rw [goodPin_draw_data, List.range_succ_eq_map]
  simp only [List.map_cons, List.head?_cons]
  rw [if_pos (by omega)]

theorem goodPin_zero_mem (length : Nat) (h2 : 2 ≤ length) :
    '0' ∈ (draw_candidate length (goodPinSrc length) 0).data := by
  rw [goodPin_draw_data]
  exact List.mem_map.mpr ⟨0, List.mem_range.mpr (by omega), by rw [if_pos (by omega)]⟩

theorem goodPin_one_mem (length : Nat) (h2 : 2 ≤ length) :
    '1' ∈ (draw_candidate length (goodPinSrc length) 0).data := by
  rw [goodPin_draw_data]
  exact List.mem_map.mpr
    ⟨length - 1, List.mem_range.mpr (by omega), by rw [if_neg (by omega)]⟩

theorem disallowed_head_ne_zero :
    ∀ d ∈ disallowed_pins, d.data.head? ≠ some '0' := by decide

theorem goodPin_acceptable (length : Nat) (h2 : 2 ≤ length) :
    pin_acceptable (draw_candidate length (goodPinSrc length) 0) = true := by
  rw [pin_acceptable_iff]
  refine ⟨dedup_length_ne_one_of_mem_ne (goodPin_zero_mem length h2)
    (goodPin_one_mem length h2) (by decide), ?_⟩
  have hmem : draw_candidate length (goodPinSrc length) 0 ∉ disallowed_pins :=
    fun hm => disallowed_head_ne_zero _ hm (goodPin_head length h2)
  simpa using hmem

theorem draw_candidate_one_data (src : Nat → Nat → Nat) (k : Nat) :
    (draw_candidate 1 src k).data = [secrets_choice string_digits (src k 0)] := rfl

theorem pin_one_rejected (src : Nat → Nat → Nat) (k : Nat) :
    pin_acceptable (draw_candidate 1 src k) = false := by
  have hd := draw_candidate_one_data src k
  rw [pin_acceptable, hd,
    List.dedup_cons_of_not_mem (List.not_mem_nil _), List.dedup_nil]
  simp

theorem generate_pin_loop_one (src : Nat → Nat → Nat) :
    ∀ fuel k, generate_pin_loop 1 src fuel k = none := by
  intro fuel
  induction fuel with
  | zero => intro k; rfl
  | succ n ih =>
    intro k
    simp only [generate_pin_loop]
    simp [pin_one_rejected src k, ih]

theorem entryStep_eq_some {cfg : Configs} {run : EntryRun} {pin : String}
    {row : CsvRow} {pin' : String}
    (h : entryStep cfg run pin = some (row, pin')) :
    ∃ art serial response,
      create_credentials_on_security_key cfg run.ceremonyEnv pin
        = .ok (art, serial, pin') ∧
      run.activation = some response ∧
      row = { upn := run.entry.user_name,
              authMethodId := (create_and_activate_fido_method response).2,
              serialNumber := serial, pin := pin' } := by
  cases hcc : create_credentials_on_security_key cfg run.ceremonyEnv pin with
  | error e => simp [entryStep, hcc] at h
  | ok t =>
    obtain ⟨art, serial, pin2⟩ := t
    cases hact : run.activation with
    | none => simp [entryStep, hcc, hact] at h
    | some resp =>
      simp only [entryStep, hcc, hact, Option.some.injEq, Prod.mk.injEq] at h
      obtain ⟨hrow, hpin⟩ := h
      subst hpin
      exact ⟨art, serial, resp, rfl, rfl, hrow.symm⟩

theorem generate_and_set_pin_ok_inv {cfg : Configs} {src : Nat → Nat → Nat}
    {fuel : Nat} {device d1 : AuthenticatorState} {pin pin1 : String}
    (h : generate_and_set_pin cfg src fuel device pin = .ok d1 pin1) :
    (cfg.setRandomPIN = true →
      generate_pin cfg.randomPINLength src fuel = some pin1) ∧
    (cfg.setRandomPIN = false → pin1 = pin) := by
  unfold generate_and_set_pin at h
  constructor
  · intro hr
    rw [hr, if_pos rfl] at h
    split at h
    · cases h
    · cases hq : generate_pin cfg.randomPINLength src fuel with
      | none => rw [hq] at h; cases h
      | some q => rw [hq] at h; cases h; rfl
  · intro hr
    rw [hr, if_neg Bool.false_ne_true] at h
    cases h
    rfl

theorem ceremony_ok_inv {cfg : Configs} {env : CeremonyEnv} {pin : String}
    {art : MakeCredentialResult} {serial pin' : String}
    (hwin : env.windowsNonAdmin = false)
    (h : create_credentials_on_security_key cfg env pin = .ok (art, serial, pin')) :
    ∃ d1 pin1,
      generate_and_set_pin cfg env.pinSrc env.pinFuel env.device pin
        = .ok d1 pin1 ∧
      pin' = (if (cfg.setMinimumPINLength || cfg.setForceChangePin) = true
              then set_ctap21_flags cfg false env.configGetpass pin1
              else pin1) := by
  unfold create_credentials_on_security_key at h
  rw [hwin, if_neg Bool.false_ne_true] at h
  cases hgsp : generate_and_set_pin cfg env.pinSrc env.pinFuel env.device pin with
  | quitted d q => rw [hgsp] at h; simp at h
  | outOfFuel => rw [hgsp] at h; simp at h
  | ok d1 pin1 =>
    rw [hgsp] at h
    dsimp only at h
    split at h
    · simp at h
    · cases hmc : env.makeCredential with
      | none => rw [hmc] at h; simp at h
      | some art2 =>
        rw [hmc] at h
        dsimp only at h
        simp only [Except.ok.injEq, Prod.mk.injEq] at h
        exact ⟨d1, pin1, rfl, h.2.2.symm⟩

/-! ## Claim theorems -/

/-- C5: every PIN `generate_pin` returns has exactly the configured length,
is not a single repeated digit (its set of digits has more than one
element), is not in the fixed denylist, and is one of the drawn candidates
verbatim — rejected candidates are resampled, never sanitized in place. -/
theorem generate_pin_policy (length : Nat) (src : Nat → Nat → Nat) (fuel : Nat)
    (p : String) (h : generate_pin length src fuel = some p) :
    p.length = length ∧ p.data.dedup.length ≠ 1 ∧
      disallowed_pins.contains p = false ∧
      ∃ j, p = draw_candidate length src j := by
  obtain ⟨hacc, j, rfl⟩ := generate_pin_loop_spec h
  obtain ⟨h1, h2⟩ := pin_acceptable_iff.mp hacc
  exact ⟨draw_candidate_length length src j, h1, h2, j, rfl⟩

/-- C5 witness: a concrete draw accepted on the first iteration. -/
theorem generate_pin_policy_witness :
    pinSample.length = 4 ∧ pinSample.data.dedup.length ≠ 1 ∧
      disallowed_pins.contains pinSample = false ∧
      ∃ j, pinSample = draw_candidate 4 (fun _ i => i) j :=
  generate_pin_policy 4 (fun _ i => i) 1 pinSample (by decide)

/-- C10: the rejection-sampling loop can terminate exactly when the
configured length admits an acceptable PIN: every length ≥ 2 admits one
(and some oracle makes `generate_pin` return it on the first draw), while
at length 1 every drawn candidate is a single repeated digit, every draw is
rejected, and the loop never terminates, whatever the oracle and fuel. -/
theorem generate_pin_termination (length : Nat) :
    (2 ≤ length →
      ∃ s, s.length = length ∧ pin_acceptable s = true ∧
        ∃ src fuel, generate_pin length src fuel = some s) ∧
    (length = 1 →
      ∀ src : Nat → Nat → Nat, ∀ k fuel,
        pin_acceptable (draw_candidate length src k) = false ∧
        generate_pin length src fuel = none) := by
  constructor
  · intro h2
    refine ⟨draw_candidate length (goodPinSrc length) 0,
      draw_candidate_length _ _ _, goodPin_acceptable length h2,
      goodPinSrc length, 1, ?_⟩
    show generate_pin_loop length (goodPinSrc length) (0 + 1) 0 = _
    rw [generate_pin_loop]
    simp [goodPin_acceptable length h2]
  · rintro rfl src k fuel
    exact ⟨pin_one_rejected src k, generate_pin_loop_one src fuel 0⟩

/-- C10 witness: instantiated at lengths 2 and 1. -/
theorem generate_pin_termination_witness :
    (∃ s, s.length = 2 ∧ pin_acceptable s = true ∧
      ∃ src fuel, generate_pin 2 src fuel = some s) ∧
    (∀ src : Nat → Nat → Nat, ∀ k fuel,
      pin_acceptable (draw_candidate 1 src k) = false ∧
      generate_pin 1 src fuel = none) :=
  ⟨(generate_pin_termination 2).1 (by norm_num),
   (generate_pin_termination 1).2 rfl⟩

/-- C7: with `setRandomPIN` configured and the device already reporting a
client PIN, `generate_and_set_pin` ends in the terminal `quit()` outcome:
no PIN is generated or applied, and the result carries the unchanged device
state and the unchanged global `pin`. -/
theorem random_pin_already_set_quits (cfg : Configs) (src : Nat → Nat → Nat)
    (fuel : Nat) (device : AuthenticatorState) (pin : String)
    (hrand : cfg.setRandomPIN = true) (hset : device.clientPin = some true) :
    generate_and_set_pin cfg src fuel device pin = .quitted device pin := by
  simp [generate_and_set_pin, hrand, hset]

/-- C7 witness. -/
theorem random_pin_already_set_quits_witness :
    generate_and_set_pin cfgRandom (fun _ _ => 0) 0 devPinSet pinInit =
      .quitted devPinSet pinInit :=
  random_pin_already_set_quits cfgRandom (fun _ _ => 0) 0 devPinSet pinInit rfl rfl

/-- C6: on the contactless path every exception raised inside the try body
is caught and yields the empty serial instead of propagating, a successful
body yields its serial, and the `device._select()` cleanup runs on every
execution path. -/
theorem nfc_serial_catch_and_cleanup (dev : NfcDevice) :
    (get_thales_serial_number_nfc dev).selectCleanupRan = true ∧
    (nfc_try_body dev = none → (get_thales_serial_number_nfc dev).serial = "") ∧
    (∀ s, nfc_try_body dev = some s →
      (get_thales_serial_number_nfc dev).serial = s) := by
  refine ⟨?_, fun h => ?_, fun s h => ?_⟩
  · cases h : nfc_try_body dev <;> simp [get_thales_serial_number_nfc, h]
  · simp [get_thales_serial_number_nfc, h]
  · simp [get_thales_serial_number_nfc, h]

/-- C6 witness: a device whose APDU exchanges raise. -/
theorem nfc_serial_catch_and_cleanup_witness :
    (get_thales_serial_number_nfc nfcDevRaise).selectCleanupRan = true ∧
    (get_thales_serial_number_nfc nfcDevRaise).serial = "" :=
  ⟨(nfc_serial_catch_and_cleanup nfcDevRaise).1,
   (nfc_serial_catch_and_cleanup nfcDevRaise).2.1 rfl⟩

/-- C8: `build_creation_options` pins resident-key requirement,
cross-platform attachment, required user verification, the algorithm list
[ES256 (-7), RS256 (-257)] in order, "direct" attestation, empty
excludeCredentials, and the hmacCreateSecret / credProtect-OPTIONAL
(level 1) extensions for every entry; the challenge, user id, display
name, user name and relying-party id are the only per-entry data. -/
theorem build_creation_options_fixed_fields
    (challenge userId displayName name rp_id : String) :
    (build_creation_options challenge userId displayName name
        rp_id).authenticatorSelection.requireResidentKey = true ∧
    (build_creation_options challenge userId displayName name
        rp_id).authenticatorSelection.authenticatorAttachment = "cross-platform" ∧
    (build_creation_options challenge userId displayName name
        rp_id).authenticatorSelection.userVerification = "required" ∧
    (build_creation_options challenge userId displayName name
        rp_id).pubKeyCredParams =
      [{ type := "public-key", alg := -7 }, { type := "public-key", alg := -257 }] ∧
    (build_creation_options challenge userId displayName name
        rp_id).attestation = "direct" ∧
    (build_creation_options challenge userId displayName name
        rp_id).excludeCredentials = [] ∧
    (build_creation_options challenge userId displayName name
        rp_id).extensions.hmacCreateSecret = true ∧
    (build_creation_options challenge userId displayName name
        rp_id).extensions.credentialProtectionPolicy = .optional ∧
    credProtectLevel (build_creation_options challenge userId displayName name
        rp_id).extensions.credentialProtectionPolicy = 1 ∧
    (build_creation_options challenge userId displayName name
        rp_id).challenge = base64url_to_bytearray challenge ∧
    (build_creation_options challenge userId displayName name
        rp_id).user.id = base64url_to_bytearray userId ∧
    (build_creation_options challenge userId displayName name
        rp_id).user.displayName = displayName ∧
    (build_creation_options challenge userId displayName name
        rp_id).user.name = name ∧
    (build_creation_options challenge userId displayName name
        rp_id).rp.id = rp_id :=
  ⟨rfl, rfl, rfl, rfl, rfl, rfl, rfl, rfl, rfl, rfl, rfl, rfl, rfl, rfl⟩

/-- C9: an 8-byte response whose echoed channel identifier matches reaches
the unguarded `recv[8]` access before any transport-error branch and fails
with the index-out-of-bounds outcome. -/
theorem hid_index_access_unguarded :
    recvShort.length < 9 ∧ unpack_from_be32 recvShort = some 1 ∧
      get_thales_serial_number_hid 1 recvShort = .error .indexOutOfBounds :=
  ⟨by decide, rfl, rfl⟩

/-- C2 (code bug): the `sys.getsizeof(recv) < 17` guard measures CPython
object size (33 + byte length), never byte length, so a well-formed
12-byte response — matching channel, status bytes `0`/`0x02` — slips past
it and yields a truncated 3-character serial instead of the transport
error required for responses shorter than 17 bytes. -/
theorem hid_length_guard_ineffective :
    recvTruncated.length = 12 ∧
    unpack_from_be32 recvTruncated = some 1 ∧
    recvTruncated.get? 7 = some 0 ∧
    recvTruncated.get? 8 = some 2 ∧
    17 ≤ sys_getsizeof recvTruncated ∧
    get_thales_serial_number_hid 1 recvTruncated = .ok serialABC :=
  ⟨rfl, rfl, rfl, rfl, by decide, rfl⟩

/-- C1: the activation call succeeds exactly on HTTP 201, returning the
body's `id` field; any other status yields the failure pair with no method
id, and the row the batch appends for such an entry carries no method id —
it is not recorded as a success — with the single response consulted once
and never retried. -/
theorem activation_status_mapping (cfg : Configs) (run : EntryRun)
    (pin : String) (response : HttpResponse) :
    (response.status_code = 201 →
      create_and_activate_fido_method response = (true, some response.json_id)) ∧
    (response.status_code ≠ 201 →
      create_and_activate_fido_method response = (false, none)) ∧
    (∀ row pin', run.activation = some response → response.status_code ≠ 201 →
      entryStep cfg run pin = some (row, pin') → row.authMethodId = none) := by
  refine ⟨fun h => by simp [create_and_activate_fido_method, h],
          fun h => by simp [create_and_activate_fido_method, h], ?_⟩
  intro row pin' hact hne hstep
  obtain ⟨art, serial, resp2, hcc, hact2, hrow⟩ := entryStep_eq_some hstep
  rw [hact] at hact2
  obtain rfl : response = resp2 := Option.some.inj hact2
  rw [hrow]
  simp [create_and_activate_fido_method, hne]

/-- C1 witness: instantiated at a 201 response, a 400 response, and the
row appended for a worklist entry whose activation returned 400. -/
theorem activation_status_mapping_witness :
    create_and_activate_fido_method resp201 = (true, some methodIdA) ∧
    create_and_activate_fido_method resp400 = (false, none) ∧
    row400.authMethodId = none :=
  ⟨(activation_status_mapping cfgPlain run400 pinInit resp201).1 rfl,
   (activation_status_mapping cfgPlain run400 pinInit resp400).2.1 (by decide),
   (activation_status_mapping cfgPlain run400 pinInit
       { status_code := 400, json_id := "zz" }).2.2
     row400 pinInit rfl (by decide) (by decide)⟩

/-- C3 counterexample: with `setRandomPIN` off and `setMinimumPINLength`
on, the `"9137"` the operator types at the `set_ctap21_flags` `getpass`
prompt — an interactively supplied PIN, nothing was generated — is written
verbatim as the pin field of the appended output row. -/
theorem operator_pin_written_to_output :
    cfgPrompted.setRandomPIN = false ∧
    envPrompted.configGetpass = "9137" ∧
    (runBatch cfgPrompted [runPrompted] pinInit).map CsvRow.pin = ["9137"] :=
  ⟨rfl, rfl, by decide⟩

/-- C3 amended: for a non-delegated entry the appended row's pin field is
the freshly generated PIN when `setRandomPIN` is configured; without
`setRandomPIN` it is the unchanged incoming global pin when neither
CTAP2.1 flag is configured, but when `setMinimumPINLength` or
`setForceChangePin` is configured it is the PIN the operator re-enters at
the `set_ctap21_flags` prompt, so that interactively supplied PIN is
written to the output record set. -/
theorem row_pin_provenance (cfg : Configs) (run : EntryRun) (pin : String)
    (row : CsvRow) (pin' : String)
    (hwin : run.ceremonyEnv.windowsNonAdmin = false)
    (hstep : entryStep cfg run pin = some (row, pin')) :
    (cfg.setRandomPIN = true →
      generate_pin cfg.randomPINLength run.ceremonyEnv.pinSrc
        run.ceremonyEnv.pinFuel = some row.pin) ∧
    (cfg.setRandomPIN = false →
      (cfg.setMinimumPINLength || cfg.setForceChangePin) = false →
      row.pin = pin) ∧
    (cfg.setRandomPIN = false →
      (cfg.setMinimumPINLength || cfg.setForceChangePin) = true →
      row.pin = run.ceremonyEnv.configGetpass) := by
  obtain ⟨art, serial, resp, hcc, hact, hrow⟩ := entryStep_eq_some hstep
  have hpin : row.pin = pin' := by rw [hrow]
  obtain ⟨d1, pin1, hgsp, hpin'⟩ := ceremony_ok_inv hwin hcc
  have hchar := generate_and_set_pin_ok_inv hgsp
  refine ⟨fun hr => ?_, fun hr hml => ?_, fun hr hml => ?_⟩
  · have hset : set_ctap21_flags cfg false run.ceremonyEnv.configGetpass pin1
        = pin1 := by simp [set_ctap21_flags, hr]
    have hp1 : pin' = pin1 := by rw [hpin']; split <;> simp [hset]
    rw [hpin, hp1]
    exact hchar.1 hr
  · have hp1 : pin' = pin1 := by rw [hpin', if_neg (by simp [hml])]
    rw [hpin, hp1, hchar.2 hr]
  · have hset : set_ctap21_flags cfg false run.ceremonyEnv.configGetpass pin1
        = run.ceremonyEnv.configGetpass := by simp [set_ctap21_flags, hr]
    rw [hpin, hpin', if_pos hml, hset]

/-- C3 amended witness: the prompting configuration writes the operator's
re-entered PIN into the row. -/
theorem row_pin_provenance_witness :
    rowPrompted.pin = envPrompted.configGetpass :=
  (row_pin_provenance cfgPrompted runPrompted pinInit rowPrompted
    envPrompted.configGetpass rfl (by decide)).2.2 rfl rfl

/-- C4: if every entry before `bad` processes successfully and `bad`'s
processing raises, the batch output over the whole worklist equals the
prefix's output — exactly one row per entry successfully processed before
the failing one — and no entry after `bad` is attempted. -/
theorem batch_abort_on_exception (cfg : Configs) (pre : List EntryRun)
    (bad : EntryRun) (post : List EntryRun) (pin0 p : String)
    (hpre : pinAfter cfg pre pin0 = some p)
    (hbad : entryStep cfg bad p = none) :
    runBatch cfg (pre ++ bad :: post) pin0 = runBatch cfg pre pin0 ∧
    (runBatch cfg pre pin0).length = pre.length := by
  revert hpre
  induction pre generalizing pin0 with
  | nil =>
    intro hpre
    obtain rfl : pin0 = p := Option.some.inj hpre
    simp [runBatch, hbad]
  | cons r rest ih =>
    intro hpre
    cases hstep : entryStep cfg r pin0 with
    | none =>
      rw [pinAfter, hstep] at hpre
      cases hpre
    | some rp =>
      obtain ⟨row, pin1⟩ := rp
      rw [pinAfter, hstep] at hpre
      have hrec := ih pin1 hpre
      constructor
      · rw [List.cons_append]
        simp only [runBatch, hstep]
        rw [hrec.1]
      · simp only [runBatch, hstep, List.length_cons]
        simp [hrec.2]

/-- C4 witness: a 3-entry worklist whose second entry's ceremony raises
produces exactly the first entry's row; the third entry is not attempted. -/
theorem batch_abort_on_exception_witness :
    runBatch cfgPlain [runOk, runRaise, runOk] pinInit
      = runBatch cfgPlain [runOk] pinInit ∧
    (runBatch cfgPlain [runOk] pinInit).length = [runOk].length :=
  batch_abort_on_exception cfgPlain [runOk] runRaise [runOk] pinInit pinInit
    (by decide) (by decide)
